import Mathlib

/-!
A shallow embedding of the iOS document-picker bridge (src/lib.rs).

Bytes are modelled as `Nat` and byte buffers as `List Nat`.  A non-null
native buffer of length `len` is modelled as `some buf`, where `buf` is
the list of the `len` bytes the callback may read; a null data pointer is
`none`.

The one-shot path (`pick_file`) hands a boxed `tokio::sync::oneshot`
sender to the native browser; the callback shim `pick_file_closure`
reclaims it and sends at most one `Option<FileHandle>`.  The multi path
(`pick_files`) hands over a boxed `tokio::sync::watch` sender (a
latest-value channel seeded with `None`); its shim `pick_files_closure`
sends `Some(handle)` and forgets the sender again on a non-null buffer,
and drops the sender on a null pointer.  The stream the caller sees is
`WatchStream::new(rx).filter_map(|f| f)`.

Channel state is explicit; a possible panic is an `Except.error`.
-/

/-- The content of one picked file: `FileHandle(Arc<[u8]>)`, an immutable
byte buffer copied out of the callback's borrowed data. -/
structure FileHandle where
  bytes : List Nat
  deriving DecidableEq

/-- State of the `tokio::sync::oneshot` channel used by `pick_file`:
the value sent so far (if any) and whether each half is still alive. -/
structure OneshotState where
  value : Option (Option FileHandle)
  senderAlive : Bool
  receiverAlive : Bool
  deriving DecidableEq

/-- The fresh channel made by `oneshot::channel()` inside `pick_file`. -/
def initOneshot : OneshotState :=
  { value := none, senderAlive := true, receiverAlive := true }

/-- `oneshot::Sender::send`: consumes the sender either way; the value is
stored only when the receiver is still alive, otherwise the send fails
(the `Bool` is the success flag of the returned `Result`). -/
def oneshotSend (s : OneshotState) (v : Option FileHandle) : OneshotState × Bool :=
  if s.receiverAlive then
    ({ s with value := some v, senderAlive := false }, true)
  else
    ({ s with senderAlive := false }, false)

/-- The one-shot callback shim `pick_file_closure`: reclaims the boxed
sender (`Box::from_raw`), copies a non-null buffer into a new `FileHandle`
and sends `some`, or sends `none` for a null pointer; the send result is
discarded (`.ok()`).  A panic would be `Except.error`; the shim has no
panic path. -/
def pick_file_closure (data : Option (List Nat)) (s : OneshotState) :
    Except Unit OneshotState :=
  match data with
  | some buf => Except.ok (oneshotSend s (some ⟨buf⟩)).fst
  | none => Except.ok (oneshotSend s none).fst

/-- Run the one-shot shim for its state effect (it never panics, as
`pick_file_late_callback_is_noop` proves). -/
def runOneshotCb (data : Option (List Nat)) (s : OneshotState) : OneshotState :=
  match pick_file_closure data s with
  | Except.ok s1 => s1
  | Except.error _ => s

/-- What polling the future returned by `pick_file` observes: the async
block awaits the receiver and maps `Ok(res) => res, Err(_) => None`. -/
inductive FuturePoll where
  | pending
  | ready (v : Option FileHandle)
  deriving DecidableEq

/-- Poll the `pick_file` future: ready with the sent value once one was
sent; ready with `none` when the sender is gone without sending (the
`Err(_) => None` arm); pending otherwise. -/
def futurePoll (s : OneshotState) : FuturePoll :=
  match s.value with
  | some v => FuturePoll.ready v
  | none => if s.senderAlive then FuturePoll.pending else FuturePoll.ready none

/-- `CString::new` on a byte string: fails exactly when the string has an
embedded null byte, otherwise yields the null-terminated copy. -/
def cstringNew (s : List Nat) : Option (List Nat) :=
  if 0 ∈ s then none else some (s ++ [0])

/-- The marshalling loop of `with_extension_ptrs`:
`extensions.iter().map(|s| CString::new(*s).unwrap()).collect()`.
`none` is the panic of the first failing `unwrap`. -/
def marshalExtensions : List (List Nat) → Option (List (List Nat))
  | [] => some []
  | s :: rest =>
    match cstringNew s, marshalExtensions rest with
    | some c, some cs => some (c :: cs)
    | _, _ => none

/-- `with_extension_ptrs`: builds the null-terminated copies and the
parallel pointer array (each pointer modelled by the byte list it points
to) and runs `f` on that array while the owning storage is in scope; an
embedded null makes `unwrap` panic (`Except.error`) before `f` runs. -/
def with_extension_ptrs {T : Type} (extensions : List (List Nat))
    (f : List (List Nat) → T) : Except Unit T :=
  match marshalExtensions extensions with
  | some ptrs => Except.ok (f ptrs)
  | none => Except.error ()

/-- `pick_file` up to the native boundary: marshal the extensions, then
create the oneshot channel whose boxed sender goes to `show_browser`.
The session state returned is the fresh channel. -/
def pick_file (extensions : List (List Nat)) : Except Unit OneshotState :=
  with_extension_ptrs extensions (fun _ => initOneshot)

/-- State of the `tokio::sync::watch` channel of `pick_files`, together
with the observer state of `WatchStream`: `current` and `version` live in
the channel (`version` is bumped by every send), `seen` is the last
version the stream observed, and `firstPoll` records that the stream has
not yet yielded the initial borrow. -/
structure MultiState where
  current : Option FileHandle
  version : Nat
  seen : Nat
  firstPoll : Bool
  senderAlive : Bool
  receiverAlive : Bool
  deriving DecidableEq

/-- The fresh session of `pick_files`: `watch::channel(None)` plus a
`WatchStream` that has not yielded yet. -/
def initMulti : MultiState :=
  { current := none, version := 0, seen := 0, firstPoll := true,
    senderAlive := true, receiverAlive := true }

/-- `pick_files` up to the native boundary: marshal the extensions, then
create the seeded watch channel whose boxed sender goes to
`show_browser`.  The session state returned is the fresh channel plus the
stream observer. -/
def pick_files (extensions : List (List Nat)) : Except Unit MultiState :=
  with_extension_ptrs extensions (fun _ => initMulti)

/-- `watch::Sender::send`: stores the value and bumps the version when a
receiver is alive, otherwise fails and changes nothing (the `Bool` is the
success flag). -/
def watchSend (s : MultiState) (v : FileHandle) : MultiState × Bool :=
  if s.receiverAlive then
    ({ s with current := some v, version := s.version + 1 }, true)
  else
    (s, false)

/-- The multi callback shim `pick_files_closure`: reclaims the boxed
sender; on a non-null buffer it copies the bytes, sends `some handle`
(discarding the result) and forgets the sender back for the next call;
on a null pointer it sends nothing, so the reclaimed sender is dropped. -/
def pick_files_closure (data : Option (List Nat)) (s : MultiState) : MultiState :=
  match data with
  | some buf => (watchSend s ⟨buf⟩).fst
  | none => { s with senderAlive := false }

/-- One poll of the raw `WatchStream`: an item, the end of the stream, or
pending. -/
inductive RawPoll where
  | item (v : Option FileHandle)
  | pending
  | ended
  deriving DecidableEq

/-- One poll of the filtered stream `pick_files` returns. -/
inductive StreamPoll where
  | ready (v : FileHandle)
  | pending
  | ended
  deriving DecidableEq

/-- Poll the raw `WatchStream`: the first poll yields the current borrow
and marks it seen (`borrow_and_update`); later polls yield the current
value when an unseen version exists, suspend while the sender is alive,
and end once the sender is gone with nothing unseen (`changed()` errs). -/
def watchStreamPoll (s : MultiState) : MultiState × RawPoll :=
  if s.firstPoll then
    ({ s with firstPoll := false, seen := s.version }, RawPoll.item s.current)
  else if s.seen < s.version then
    ({ s with seen := s.version }, RawPoll.item s.current)
  else if s.senderAlive then
    (s, RawPoll.pending)
  else
    (s, RawPoll.ended)

/-- Poll `WatchStream::new(rx).filter_map(|f| f)`: a `some` item is
yielded, a `none` item (the seed) is filtered out and the inner stream is
polled once more — after a raw item the observer is fully caught up, so
that second poll can only suspend or end (`watchStreamPoll_item_no_repeat`);
the leftover arm is unreachable and maps to pending. -/
def streamPoll (s : MultiState) : MultiState × StreamPoll :=
  match watchStreamPoll s with
  | (s1, RawPoll.item (some fh)) => (s1, StreamPoll.ready fh)
  | (s1, RawPoll.item none) =>
    match watchStreamPoll s1 with
    | (s2, RawPoll.item (some fh)) => (s2, StreamPoll.ready fh)
    | (s2, RawPoll.item none) => (s2, StreamPoll.pending)
    | (s2, RawPoll.pending) => (s2, StreamPoll.pending)
    | (s2, RawPoll.ended) => (s2, StreamPoll.ended)
  | (s1, RawPoll.pending) => (s1, StreamPoll.pending)
  | (s1, RawPoll.ended) => (s1, StreamPoll.ended)

/-- An event of a multi-pick session: a native callback invocation or one
poll by the consumer. -/
inductive MEvent where
  | cb (data : Option (List Nat))
  | poll
  deriving DecidableEq

/-- One event step of a multi-pick session, with the items it yields. -/
def multiStep (s : MultiState) : MEvent → MultiState × List FileHandle
  | MEvent.cb d => (pick_files_closure d s, [])
  | MEvent.poll =>
    match streamPoll s with
    | (s1, StreamPoll.ready fh) => (s1, [fh])
    | (s1, StreamPoll.pending) => (s1, [])
    | (s1, StreamPoll.ended) => (s1, [])

/-- Run a multi-pick session over a trace of events, collecting the items
the stream yields in order. -/
def runMulti : MultiState → List MEvent → MultiState × List FileHandle
  | s, [] => (s, [])
  | s, e :: es =>
    let step := multiStep s e
    let rest := runMulti step.fst es
    (rest.fst, step.snd ++ rest.snd)

/-- The observer state after the first poll of a fresh `pick_files`
session on which no callback has fired: the seed was read and filtered
out, and the session idles. -/
def idleMulti : MultiState :=
  { current := none, version := 0, seen := 0, firstPoll := false,
    senderAlive := true, receiverAlive := true }

/-- After a raw item the observer is caught up (`seen = version`, first
poll spent), so an immediate second raw poll never yields another item. -/
theorem watchStreamPoll_item_no_repeat (s s1 : MultiState) (v w : Option FileHandle)
    (h : watchStreamPoll s = (s1, RawPoll.item v)) :
    (watchStreamPoll s1).snd ≠ RawPoll.item w := by
  have hkey : s1.firstPoll = false ∧ s1.seen = s1.version := by
    unfold watchStreamPoll at h
    by_cases hf : s.firstPoll = true
    · rw [if_pos hf, Prod.mk.injEq] at h
      obtain ⟨h1, h2⟩ := h
      subst h1
      exact ⟨rfl, rfl⟩
    · rw [if_neg hf] at h
      by_cases hlt : s.seen < s.version
      · rw [if_pos hlt, Prod.mk.injEq] at h
        obtain ⟨h1, h2⟩ := h
        subst h1
        simp only [Bool.not_eq_true] at hf
        exact ⟨hf, rfl⟩
      · rw [if_neg hlt] at h
        by_cases hs : s.senderAlive = true
        · rw [if_pos hs, Prod.mk.injEq] at h
          simp at h
        · rw [if_neg hs, Prod.mk.injEq] at h
          simp at h
  obtain ⟨hk1, hk2⟩ := hkey
  unfold watchStreamPoll
  rw [hk1, hk2]
  by_cases hs : s1.senderAlive = true <;> simp [hs, lt_self_iff_false]

/-- When no extension string has an embedded null, the marshalling loop
succeeds and returns exactly the null-terminated copies, in order. -/
theorem marshalExtensions_eq (extensions : List (List Nat))
    (h : ∀ s ∈ extensions, 0 ∉ s) :
    marshalExtensions extensions = some (extensions.map (fun s => s ++ [0])) := by
  induction extensions with
  | nil => rfl
  | cons a rest ih =>
    have ha : 0 ∉ a := h a (List.mem_cons_self a rest)
    have hr := ih (fun s hs => h s (List.mem_cons_of_mem a hs))
    simp [marshalExtensions, cstringNew, ha, hr]

/-- C2: for every extension sequence whose strings contain no embedded
null bytes, `with_extension_ptrs` hands its continuation — which runs
while the owning storage is alive, within the call — a pointer array of
exactly the input's length whose i-th entry points to the null-terminated
copy of the i-th input string. -/
theorem with_extension_ptrs_marshals (extensions : List (List Nat))
    (h : ∀ s ∈ extensions, 0 ∉ s) :
    (∀ (T : Type) (f : List (List Nat) → T),
      with_extension_ptrs extensions f
        = Except.ok (f (extensions.map (fun s => s ++ [0]))))
    ∧ (extensions.map (fun s => s ++ [0])).length = extensions.length
    ∧ ∀ (i : Nat) (e : List Nat), extensions[i]? = some e →
        (extensions.map (fun s => s ++ [0]))[i]? = some (e ++ [0]) := by
  refine ⟨?_, ?_, ?_⟩
  · intro T f
    simp [with_extension_ptrs, marshalExtensions_eq extensions h]
  · simp
  · intro i e he
    simp [List.getElem?_map, he]

/-- Witness for C2 at the concrete sequence ["pdf", "txt"]. -/
theorem with_extension_ptrs_marshals_witness :
    with_extension_ptrs [[112, 100, 102], [116, 120, 116]] (fun l => l)
      = Except.ok [[112, 100, 102, 0], [116, 120, 116, 0]] := by
  have h := (with_extension_ptrs_marshals [[112, 100, 102], [116, 120, 116]]
    (by decide)).1 (List (List Nat)) (fun l => l)
  simpa using h

/-- C3: in a one-shot session, a single callback invocation with a
non-null buffer resolves the future to `some` handle whose bytes are a
copy of the buffer, so its length is the buffer's length. -/
theorem pick_file_nonnull_resolves_some (buf : List Nat) :
    futurePoll (runOneshotCb (some buf) initOneshot)
        = FuturePoll.ready (some ⟨buf⟩)
    ∧ (FileHandle.mk buf).bytes = buf
    ∧ (FileHandle.mk buf).bytes.length = buf.length :=
  ⟨rfl, rfl, rfl⟩

/-- C4: in a one-shot session, a callback invocation with a null data
pointer resolves the future to `none`. -/
theorem pick_file_null_resolves_none :
    futurePoll (runOneshotCb none initOneshot) = FuturePoll.ready none := rfl

/-- C5: the one-shot future resolves at most once, to `some` or `none`:
a producer dropped without sending resolves the future to `none` rather
than erroring, a dead producer never leaves the future hanging, and after
any callback invocation the producer is consumed, so no second value can
ever be sent. -/
theorem pick_file_resolves_at_most_once :
    (∀ s : OneshotState, s.value = none → s.senderAlive = false →
      futurePoll s = FuturePoll.ready none)
    ∧ (∀ s : OneshotState, s.senderAlive = false →
      futurePoll s ≠ FuturePoll.pending)
    ∧ (∀ d s, (runOneshotCb d s).senderAlive = false) := by
  refine ⟨?_, ?_, ?_⟩
  · intro s hv hs
    simp [futurePoll, hv, hs]
  · intro s hs
    cases hval : s.value with
    | some v => simp [futurePoll, hval]
    | none => simp [futurePoll, hval, hs]
  · intro d s
    cases d <;> cases hr : s.receiverAlive <;>
      simp [runOneshotCb, pick_file_closure, oneshotSend, hr]

/-- C6: a callback firing after the one-shot future was dropped is a safe
no-op: the shim never panics for any data and any channel state, and with
the receiver gone the failed send is discarded for both the non-null and
the null case, leaving no value behind. -/
theorem pick_file_late_callback_is_noop :
    (∀ d s, ∃ s1, pick_file_closure d s = Except.ok s1)
    ∧ (∀ buf, pick_file_closure (some buf)
        { value := none, senderAlive := true, receiverAlive := false }
        = Except.ok { value := none, senderAlive := false, receiverAlive := false })
    ∧ pick_file_closure none
        { value := none, senderAlive := true, receiverAlive := false }
        = Except.ok { value := none, senderAlive := false, receiverAlive := false } := by
  refine ⟨?_, fun buf => rfl, rfl⟩
  intro d s
  cases d with
  | some buf => exact ⟨_, rfl⟩
  | none => exact ⟨_, rfl⟩

/-- C7: an extension string with an embedded null byte makes the pick
calls fail (panic) at call time, during marshalling: no session state —
hence no future or stream — is ever produced. -/
theorem embedded_null_fails_at_call_time :
    with_extension_ptrs [[97, 0, 98]] (fun l => l) = Except.error ()
    ∧ pick_file [[97, 0, 98]] = Except.error ()
    ∧ pick_files [[97, 0, 98]] = Except.error () :=
  ⟨rfl, rfl, rfl⟩

/-- C10: in a one-shot session, a callback with a non-null buffer of
length 0 resolves the future to `some` handle with empty content, which
is distinct from the `none` of a cancellation. -/
theorem pick_file_empty_selection_is_some :
    futurePoll (runOneshotCb (some []) initOneshot)
        = FuturePoll.ready (some ⟨[]⟩)
    ∧ (FileHandle.mk []).bytes.length = 0
    ∧ FuturePoll.ready (some (FileHandle.mk [])) ≠ FuturePoll.ready none := by
  refine ⟨rfl, rfl, by decide⟩

/-- Polling an idle multi session any number of times yields nothing and
leaves it idle. -/
theorem runMulti_idle (n : Nat) :
    runMulti idleMulti (List.replicate n MEvent.poll) = (idleMulti, []) := by
  induction n with
  | zero => rfl
  | succ n ih =>
    rw [List.replicate_succ]
    have hstep : multiStep idleMulti MEvent.poll = (idleMulti, []) := rfl
    simp [runMulti, hstep, ih]

/-- C8: a multi session in which zero callback invocations occur produces
exactly zero items, for any number of polls before the adapter is
dropped: the watch channel's initial seed is filtered out and never
surfaced. -/
theorem pick_files_no_callbacks_yields_nothing (n : Nat) :
    (runMulti initMulti (List.replicate n MEvent.poll)).snd = [] := by
  cases n with
  | zero => rfl
  | succ n =>
    rw [List.replicate_succ]
    have hstep : multiStep initMulti MEvent.poll = (idleMulti, []) := rfl
    simp [runMulti, hstep, runMulti_idle n]

/-- C1 counterexample: three back-to-back non-null callback invocations
with pairwise-distinct buffers, none observed by the consumer before the
next one arrives, yield only the last value when the stream is then
polled — the two distinct intermediate values are lost, so the stream
does not produce those three values. -/
theorem pick_files_back_to_back_callbacks_coalesce :
    (runMulti initMulti [MEvent.cb (some [1]), MEvent.cb (some [2]),
        MEvent.cb (some [3]), MEvent.poll, MEvent.poll, MEvent.poll]).snd
      = [⟨[3]⟩]
    ∧ (runMulti initMulti [MEvent.cb (some [1]), MEvent.cb (some [2]),
        MEvent.cb (some [3]), MEvent.poll, MEvent.poll, MEvent.poll]).snd
      ≠ [⟨[1]⟩, ⟨[2]⟩, ⟨[3]⟩] :=
  ⟨by decide, by decide⟩

/-- C1 amended: three successive non-null callback invocations with
pairwise-distinct buffers yield exactly those three values, byte for
byte, in invocation order, provided the consumer polls the stream to
readiness after each invocation before the next one fires, and the
stream then stays idle (pending, no termination) until the adapter is
dropped; when callbacks outpace the consumer, the latest-value channel
keeps only the newest value, so an unobserved intermediate value —
distinct or duplicate — can be lost, though values are never reordered
or merged into one another. -/
theorem pick_files_in_order_when_polled_between (b1 b2 b3 : List Nat)
    (h12 : b1 ≠ b2) (h13 : b1 ≠ b3) (h23 : b2 ≠ b3) :
    (runMulti initMulti [MEvent.cb (some b1), MEvent.poll, MEvent.cb (some b2),
        MEvent.poll, MEvent.cb (some b3), MEvent.poll]).snd
      = [⟨b1⟩, ⟨b2⟩, ⟨b3⟩]
    ∧ (streamPoll (runMulti initMulti [MEvent.cb (some b1), MEvent.poll,
        MEvent.cb (some b2), MEvent.poll, MEvent.cb (some b3), MEvent.poll]).fst).snd
      = StreamPoll.pending :=
  ⟨rfl, rfl⟩

/-- Witness for the amended C1 at the buffers [1], [2], [3]. -/
theorem pick_files_in_order_when_polled_between_witness :
    (runMulti initMulti [MEvent.cb (some [1]), MEvent.poll, MEvent.cb (some [2]),
        MEvent.poll, MEvent.cb (some [3]), MEvent.poll]).snd
      = [⟨[1]⟩, ⟨[2]⟩, ⟨[3]⟩]
    ∧ (streamPoll (runMulti initMulti [MEvent.cb (some [1]), MEvent.poll,
        MEvent.cb (some [2]), MEvent.poll, MEvent.cb (some [3]), MEvent.poll]).fst).snd
      = StreamPoll.pending :=
  pick_files_in_order_when_polled_between [1] [2] [3]
    (by decide) (by decide) (by decide)

/-- C9 counterexample: with one sent-but-not-yet-observed value pending,
a null-pointer callback does not stop delivery — nothing was delivered
before the null invocation, yet the pending value is still delivered to
the consumer by a poll after it, so "after it no further items can be
delivered" fails. -/
theorem pick_files_null_then_pending_item_delivered :
    (runMulti initMulti [MEvent.cb (some [7]), MEvent.cb none]).snd = []
    ∧ (runMulti initMulti [MEvent.cb (some [7]), MEvent.cb none, MEvent.poll]).snd
      = [⟨[7]⟩] :=
  ⟨by decide, by decide⟩

/-- C9 amended: a null-pointer callback in a multi session yields no
stream item itself and pushes no value — it only reclaims (drops) the
producer, leaving the channel contents untouched — so nothing new can be
sent after it; the stream ends once any already-sent but unobserved value
has been drained: immediately when nothing is pending, and after
delivering that one pending value otherwise. -/
theorem pick_files_null_reclaims_producer :
    (∀ s, pick_files_closure none s = { s with senderAlive := false })
    ∧ ((runMulti initMulti [MEvent.cb none, MEvent.poll]).snd = []
      ∧ (streamPoll (runMulti initMulti [MEvent.cb none, MEvent.poll]).fst).snd
        = StreamPoll.ended)
    ∧ ((runMulti initMulti [MEvent.cb (some [7]), MEvent.cb none, MEvent.poll,
          MEvent.poll]).snd = [⟨[7]⟩]
      ∧ (streamPoll (runMulti initMulti [MEvent.cb (some [7]), MEvent.cb none,
          MEvent.poll, MEvent.poll]).fst).snd = StreamPoll.ended) :=
  ⟨fun s => rfl, ⟨by decide, by decide⟩, ⟨by decide, by decide⟩⟩
